import Mathlib

/-!
Verification of the Pulsar web-framework core (server bootstrap, route
registration, dispatch pipeline, storage-layer open, certificate bootstrap)
against its natural-language specification.

The Go sources embedded here are `pulsar.go` (package pulsar) and
`db/database.go` (package db).  External collaborators (the `httpscerts`
certificate library, the `gorm` storage library, the `httprouter` transport
mux) are modelled through their narrow interfaces as boolean outcomes or
recorded bindings, exactly at the call sites where the source consumes them.
-/

namespace Pulsar

/-! ## HTTP method constants

`pulsar.go` switches on `route.Method` against the six constants
`request.GetRequest` … `request.DeleteRequest` of the `request` package
(declarations only; the constants are an enumeration, embedded as distinct
naturals). -/

def GetRequest : Nat := 0

def HeadRequest : Nat := 1

def PostRequest : Nat := 2

def PutRequest : Nat := 3

def PatchRequest : Nat := 4

def DeleteRequest : Nat := 5

/-! ## Router data and route registration (`RegisterRoutes`, pulsar.go 57-86)

The `router.Router` value consumed by `RegisterRoutes` exposes a list of
routes (`r.Routes`, each with `Method`, `URI` and a handler) and a list of
child routers (`r.Childs`).  Handlers are identified by an abstract tag. -/

structure Route where
  method : Nat
  uri : String
  handler : Nat
deriving DecidableEq, Repr

inductive Router where
  | mk (routes : List Route) (childs : List Router)

def Router.routes : Router → List Route
  | .mk rs _ => rs

def Router.childs : Router → List Router
  | .mk _ cs => cs

/-- A (method, path, handler) entry bound to the transport mux.  `mux.GET`,
`mux.HEAD`, … are the transport collaborator's per-verb registration; the
embedding records the binding they receive. -/
structure Binding where
  method : Nat
  uri : String
  handler : Nat
deriving DecidableEq, Repr

/-- The `switch route.Method` of `RegisterRoutes` (pulsar.go 67-80): each of
the six recognized verbs binds `route.URI` with the wrapped handler to the
mux; any other method value falls through the switch (no `default` case) and
binds nothing. -/
def bindRoute (rt : Route) : List Binding :=
  if rt.method = GetRequest then [⟨rt.method, rt.uri, rt.handler⟩]
  else if rt.method = HeadRequest then [⟨rt.method, rt.uri, rt.handler⟩]
  else if rt.method = PostRequest then [⟨rt.method, rt.uri, rt.handler⟩]
  else if rt.method = PutRequest then [⟨rt.method, rt.uri, rt.handler⟩]
  else if rt.method = PatchRequest then [⟨rt.method, rt.uri, rt.handler⟩]
  else if rt.method = DeleteRequest then [⟨rt.method, rt.uri, rt.handler⟩]
  else []

def bindRoutes : List Route → List Binding
  | [] => []
  | rt :: rts => bindRoute rt ++ bindRoutes rts

mutual

/-- `RegisterRoutes` (pulsar.go 57-86): binds every route of the node, then
recurses into the children.  The function has no failure path: it returns
the bindings handed to the transport and nothing else. -/
def RegisterRoutes : Router → List Binding
  | .mk routes childs => bindRoutes routes ++ registerChilds childs

def registerChilds : List Router → List Binding
  | [] => []
  | c :: cs => RegisterRoutes c ++ registerChilds cs

end

/-! ## Dispatch pipeline (`developmentHandler` pulsar.go 29-42,
`productionHandler` pulsar.go 45-54)

The transport hands each callback a response writer and a request whose
body is a one-shot stream (`r.Body`): reading it drains it.  Both handlers
call `ioutil.ReadAll` on that stream once, store the bytes in `req.Body`,
replace `req.Request.Body` with a fresh `NopCloser` buffer over the same
bytes, invoke the route's handler, and write the returned response via
`res.Handle(req)`.  The handler is the route's `func(Request) → Response`;
Go has no error return here, so a handler failure is a panic, embedded as
`Except.error`: the source installs no `recover`, so a fault propagates out
of the callback (to the transport) and the response write never runs. -/

structure Stream where
  contents : String
  consumed : Bool
deriving DecidableEq, Repr

/-- `ioutil.ReadAll`: returns the remaining contents and leaves the stream
drained; a drained stream yields nothing. -/
def readAll (s : Stream) : String × Stream :=
  if s.consumed then ("", s)
  else (s.contents, { contents := s.contents, consumed := true })

/-- `request.HTTP` as the dispatch pipeline constructs it: the materialized
`Body` string plus the replaced `Request.Body` stream. -/
structure RequestHTTP where
  body : String
  requestBody : Stream
deriving DecidableEq, Repr

inductive Fault where
  | handlerPanic
deriving DecidableEq, Repr

structure Response where
  status : Nat
  content : String
deriving DecidableEq, Repr

inductive DispatchEvent where
  | logRequestEv
  | transportReadEv
  | handlerCallEv (req : RequestHTTP)
  | responseWriteEv (res : Response)
deriving DecidableEq, Repr

/-- The request value both dispatch modes construct (pulsar.go 32-38 and
47-50): `ReadAll` the transport stream into `buff`, set
`req.Body = string(buff)` and `req.Request.Body = NopCloser(buffer(buff))`
— a fresh, unconsumed stream over the same bytes. -/
def dispatchRequest (transport : Stream) : RequestHTTP :=
  { body := (readAll transport).1
    requestBody := { contents := (readAll transport).1, consumed := false } }

/-- `developmentHandler` (pulsar.go 29-42): log the request, `ReadAll` the
transport body once, materialize it into `req.Body`, replace
`req.Request.Body` with a replayable buffer of the same bytes, invoke the
handler, write its response.  No `recover`: a handler fault ends the
callback with no write. -/
def developmentHandler (h : RequestHTTP → Except Fault Response)
    (transport : Stream) : List DispatchEvent :=
  let req := dispatchRequest transport
  match h req with
  | .ok res => [.logRequestEv, .transportReadEv, .handlerCallEv req, .responseWriteEv res]
  | .error _ => [.logRequestEv, .transportReadEv, .handlerCallEv req]

/-- `productionHandler` (pulsar.go 45-54): identical to `developmentHandler`
minus the log line (and minus the read-error log, which in the development
variant only logs and falls through). -/
def productionHandler (h : RequestHTTP → Except Fault Response)
    (transport : Stream) : List DispatchEvent :=
  let req := dispatchRequest transport
  match h req with
  | .ok res => [.transportReadEv, .handlerCallEv req, .responseWriteEv res]
  | .error _ => [.transportReadEv, .handlerCallEv req]

def countTransportReads : List DispatchEvent → Nat
  | [] => 0
  | .transportReadEv :: es => countTransportReads es + 1
  | _ :: es => countTransportReads es

def countResponseWrites : List DispatchEvent → Nat
  | [] => 0
  | .responseWriteEv _ :: es => countResponseWrites es + 1
  | _ :: es => countResponseWrites es

def handlerRequests : List DispatchEvent → List RequestHTTP
  | [] => []
  | .handlerCallEv req :: es => req :: handlerRequests es
  | _ :: es => handlerRequests es

/-! ## Router Tree flattening (spec §4.1)

The `router` package itself (node construction, path-prefix handling, the
formation of each route's `URI`) is not part of the available source — only
its consumer `RegisterRoutes` is.  The tree and its flattening are
therefore modelled from the spec. -/

/-- Modelled from the spec: a "Router Tree Node: { routes: ordered sequence
of Route, children: ordered sequence of Router Tree Node, path prefix:
string (may be empty) }" (§3). -/
inductive RouterNode where
  | mk (pfx : String) (routes : List Route) (childs : List RouterNode)

mutual

/-- Modelled from the spec: "flatten() produces a single ordered sequence of
(method, absolute path, handler) triples by depth-first traversal,
concatenating each node's path prefix with its parent's accumulated prefix
(empty prefixes compose to no-op)" (§4.1).  `acc` is the parent's
accumulated prefix. -/
def flattenFrom (acc : String) : RouterNode → List Binding
  | .mk pfx routes childs =>
    routes.map (fun rt => { method := rt.method, uri := acc ++ pfx ++ rt.uri,
                            handler := rt.handler })
      ++ flattenChilds (acc ++ pfx) childs

def flattenChilds (acc : String) : List RouterNode → List Binding
  | [] => []
  | c :: cs => flattenFrom acc c ++ flattenChilds acc cs

end

/-- Modelled from the spec: flattening the whole tree starts from an empty
accumulated prefix at the root. -/
def flatten (r : RouterNode) : List Binding :=
  flattenFrom "" r

/-! ## Fatal startup outcomes

`log.Fatal` / `log.Fatalf` terminate the process; the embedding records
which diagnostic was hit. -/

inductive Fatal where
  | certGenerationFailure
  | unsupportedDriver (driver : String)
  | connectionFailure (args : String)
  | queueRoutinesParse
  | nonPositiveWorkerCount
deriving DecidableEq, Repr

/-! ## Certificate bootstrap (`generateSSLCertificate`, pulsar.go 148-164)

The `httpscerts` collaborator exposes `Check(cert, key)` and
`Generate(cert, key, address)`; their outcomes are configuration of the
model (`checkOk`: Check returned a nil error, i.e. a valid pair exists;
`generateOk`: Generate succeeded). -/

structure CertConfig where
  enabled : Bool
  checkOk : Bool
  generateOk : Bool
deriving DecidableEq, Repr

structure CertResult where
  generateAttempts : Nat
  fatal : Option Fatal
deriving DecidableEq, Repr

/-- `generateSSLCertificate` (pulsar.go 148-164): return immediately when the
certificate is disabled; return after `Check` succeeds; otherwise call
`Generate` once, and `log.Fatal` when that single attempt fails. -/
def generateSSLCertificate (c : CertConfig) : CertResult :=
  if c.enabled = false then { generateAttempts := 0, fatal := none }
  else if c.checkOk then { generateAttempts := 0, fatal := none }
  else if c.generateOk then { generateAttempts := 1, fatal := none }
  else { generateAttempts := 1, fatal := some .certGenerationFailure }

/-! ## Storage layer (`db.Open`, db/database.go 44-70)

`gorm.Open` is the storage collaborator; its success is the `connectOk`
field.  `exeDir` stands for `filepath.Dir(os.Args[0])` resolved by
`filepath.Abs`. -/

structure DBConfig where
  driver : String
  user : String
  password : String
  host : String
  port : String
  database : String
  exeDir : String
  connectOk : Bool
deriving DecidableEq, Repr

/-- The `switch s.Driver` of `db.Open` (db/database.go 49-62): the two
network-addressed drivers build a credentialed connection string, the
file-addressed driver builds a filesystem path, and any other driver name
falls to the `default` branch (`none`, which `Db.Open` turns into a fatal
diagnostic). -/
def connectionArgs (s : DBConfig) : Option String :=
  if s.driver = "mysql" then
    some (s.user ++ ":" ++ s.password ++ "@tcp(" ++ s.host ++ ":" ++ s.port
      ++ ")/" ++ s.database ++ "?charset=utf8mb4&parseTime=True&loc=Local")
  else if s.driver = "postgres" then
    some ("host=" ++ s.host ++ " port=" ++ s.port ++ " user=" ++ s.user
      ++ " dbname=" ++ s.database ++ " password=" ++ s.password)
  else if s.driver = "sqlite3" then
    some (s.exeDir ++ "/" ++ s.database)
  else
    none

namespace Db

/-- `db.Open` (db/database.go 44-70): build the driver-specific connection
arguments (`log.Fatalf` on an unsupported driver name, before any
connection attempt), then call `gorm.Open` (`log.Fatalln` on failure).  On
success the opened connection (identified by its argument string) becomes
the `Builder`. -/
def Open (s : DBConfig) : Except Fatal String :=
  match connectionArgs s with
  | none => .error (.unsupportedDriver s.driver)
  | some args => if s.connectOk then .ok args else .error (.connectionFailure args)

end Db

/-! ## Queue configuration (`Serve`, pulsar.go 116-120)

`strconv.ParseInt(config.Settings.Queue.Routines, 10, 32)` parses the
configured worker count; a parse error is `log.Fatal`. -/

def digitVal : Char → Option Nat :=
  fun c => if '0' ≤ c ∧ c ≤ '9' then some (c.toNat - '0'.toNat) else none

def digitsToNat : List Char → Nat → Option Nat
  | [], acc => some acc
  | c :: cs, acc =>
    match digitVal c with
    | none => none
    | some d => digitsToNat cs (acc * 10 + d)

/-- `strconv.ParseInt(s, 10, 32)`: an optional sign followed by at least one
decimal digit, with the value constrained to the 32-bit signed range; any
other input (empty, stray characters, out of range) yields a non-nil error,
embedded as `none`. -/
def parseInt32 (s : String) : Option Int :=
  let p : Bool × List Char :=
    match s.data with
    | '-' :: rest => (true, rest)
    | '+' :: rest => (false, rest)
    | l => (false, l)
  match p.2 with
  | [] => none
  | ds =>
    match digitsToNat ds 0 with
    | none => none
    | some n =>
      let v : Int := if p.1 then -(n : Int) else (n : Int)
      if v < -(2 ^ 31) ∨ (2 ^ 31 - 1 : Int) < v then none else some v

/-- Modelled from the spec: the `queue` package (`queue.NewPool`) is not part
of the available source; per §4.3 the pool's "Capacity is fixed at creation
from a configured worker count (validated as a positive integer; invalid
configuration is a fatal startup error)".  A non-positive capacity is
therefore a fatal error; a positive one creates the pool. -/
def NewPool (n : Int) : Except Fatal Nat :=
  if n ≤ 0 then .error .nonPositiveWorkerCount else .ok n.toNat

/-- The queue-configuration step of `Serve` (pulsar.go 116-120): parse the
configured routine count (`log.Fatal` on parse error) and create the pool. -/
def queueSetup (routines : String) : Except Fatal Nat :=
  match parseInt32 routines with
  | none => .error .queueRoutinesParse
  | some n => NewPool n

/-! ## Server bootstrap (`Serve`, pulsar.go 89-145)

`Serve` is embedded as the ordered trace of its startup steps plus the
bindings handed to the transport mux.  A `log.Fatal` along the way ends the
trace with `fatalExitEv`; a successful run ends with `listenEv` (either
`ListenAndServeTLS` or `ListenAndServe`). -/

inductive ServeEvent where
  | registerRoutesEv
  | certCheckEv
  | certGenerateEv
  | dbOpenEv
  | autoMigrateEv
  | queueCreateEv
  | listenEv
  | fatalExitEv
deriving DecidableEq, Repr

/-- Trace of `generateSSLCertificate`: `Check` runs whenever the certificate
is enabled, `Generate` only when `Check` failed; a failed `Generate` is
fatal. -/
def certEvents (c : CertConfig) : List ServeEvent × Bool :=
  if c.enabled = false then ([], true)
  else if c.checkOk then ([.certCheckEv], true)
  else if c.generateOk then ([.certCheckEv, .certGenerateEv], true)
  else ([.certCheckEv, .certGenerateEv, .fatalExitEv], false)

/-- Trace of `db.Open`: a fatal diagnostic (unsupported driver or failed
connection) ends the process; otherwise the connection is open. -/
def dbEvents (d : DBConfig) : List ServeEvent × Bool :=
  match Db.Open d with
  | .error _ => ([.fatalExitEv], false)
  | .ok _ => ([.dbOpenEv], true)

/-- Trace of the queue-configuration step. -/
def queueEvents (routines : String) : List ServeEvent × Bool :=
  match queueSetup routines with
  | .error _ => ([.fatalExitEv], false)
  | .ok _ => ([.queueCreateEv], true)

structure ServeConfig where
  cert : CertConfig
  dbCfg : DBConfig
  autoMigrate : Bool
  routines : String
  development : Bool
deriving DecidableEq, Repr

/-- `Serve` (pulsar.go 89-145), in source order: `RegisterRoutes` on the
application router (line 93), the CORS wrapper (external collaborator, no
startup step), `generateSSLCertificate` (line 107), `db.Open` (line 109),
`AutoMigrate` when configured (lines 112-114), queue configuration
(lines 116-120), then listening (line 139 or 144). -/
def Serve (cfg : ServeConfig) (r : Router) : List ServeEvent × List Binding :=
  let bindings := RegisterRoutes r
  let reg := [ServeEvent.registerRoutesEv]
  let ce := certEvents cfg.cert
  if ce.2 = false then (reg ++ ce.1, bindings) else
  let de := dbEvents cfg.dbCfg
  if de.2 = false then (reg ++ ce.1 ++ de.1, bindings) else
  let me := if cfg.autoMigrate then [ServeEvent.autoMigrateEv] else []
  let qe := queueEvents cfg.routines
  if qe.2 = false then (reg ++ ce.1 ++ de.1 ++ me ++ qe.1, bindings) else
  (reg ++ ce.1 ++ de.1 ++ me ++ qe.1 ++ [ServeEvent.listenEv], bindings)

/-! ## Concrete inputs used by counterexamples and witnesses -/

/-- A router with no routes and no children. -/
def emptyRouter : Router :=
  .mk [] []

/-- A router whose two routes share the same (method, path) pair. -/
def dupRouter : Router :=
  .mk [{ method := GetRequest, uri := "/x", handler := 1 },
       { method := GetRequest, uri := "/x", handler := 2 }] []

/-- A fully healthy configuration: certificate enabled with a valid existing
pair, mysql storage that connects, four queue routines. -/
def cfgAllOk : ServeConfig :=
  { cert := { enabled := true, checkOk := true, generateOk := true }
    dbCfg := { driver := "mysql", user := "u", password := "p", host := "h",
               port := "3306", database := "d", exeDir := "/app", connectOk := true }
    autoMigrate := false
    routines := "4"
    development := false }

/-- A healthy configuration with the certificate disabled. -/
def cfgNoCert : ServeConfig :=
  { cfgAllOk with cert := { enabled := false, checkOk := false, generateOk := false } }

/-- A storage configuration naming a driver outside the supported set. -/
def mongoCfg : DBConfig :=
  { driver := "mongodb", user := "u", password := "p", host := "h",
    port := "27017", database := "d", exeDir := "/app", connectOk := true }

end Pulsar

namespace Pulsar

/-! ## Helper lemmas -/

theorem bindRoutes_append (l₁ l₂ : List Route) :
    bindRoutes (l₁ ++ l₂) = bindRoutes l₁ ++ bindRoutes l₂ := by
  induction l₁ with
  | nil => simp [bindRoutes]
  | cons rt rts ih => simp [bindRoutes, ih, List.append_assoc]

theorem certEvents_cases (c : CertConfig) :
    certEvents c = ([], true) ∨
    certEvents c = ([.certCheckEv], true) ∨
    certEvents c = ([.certCheckEv, .certGenerateEv], true) ∨
    certEvents c = ([.certCheckEv, .certGenerateEv, .fatalExitEv], false) := by
  unfold certEvents
  split_ifs <;> simp

theorem dbEvents_cases (d : DBConfig) :
    dbEvents d = ([.fatalExitEv], false) ∨ dbEvents d = ([.dbOpenEv], true) := by
  unfold dbEvents
  cases Db.Open d <;> simp

theorem queueEvents_cases (routines : String) :
    queueEvents routines = ([.fatalExitEv], false) ∨
    queueEvents routines = ([.queueCreateEv], true) := by
  unfold queueEvents
  cases queueSetup routines <;> simp

/-! ## C1 — startup step order -/

/-- C1 (counterexample): in a concrete, fully healthy execution of `Serve`,
route registration is the first step — it precedes certificate bootstrap
(and hence also storage open and queue creation), refuting the claim that
registration happens after those three steps. -/
theorem Serve_registration_before_cert_cex :
    (Serve cfgAllOk emptyRouter).1
      = [.registerRoutesEv, .certCheckEv, .dbOpenEv, .queueCreateEv, .listenEv] ∧
    ((Serve cfgAllOk emptyRouter).1).indexOf ServeEvent.registerRoutesEv
      < ((Serve cfgAllOk emptyRouter).1).indexOf ServeEvent.certCheckEv ∧
    ((Serve cfgAllOk emptyRouter).1).indexOf ServeEvent.registerRoutesEv
      < ((Serve cfgAllOk emptyRouter).1).indexOf ServeEvent.dbOpenEv ∧
    ((Serve cfgAllOk emptyRouter).1).indexOf ServeEvent.registerRoutesEv
      < ((Serve cfgAllOk emptyRouter).1).indexOf ServeEvent.queueCreateEv := by
  decide

/-- C1 (amended): for every execution of `Serve`, route flattening and
registration is the FIRST startup step — it precedes certificate bootstrap,
storage open, queue creation and listening; the remaining steps keep the
order certificate bootstrap → storage open → migration → queue creation →
listen, and a run that reaches listening has performed the storage open and
queue creation and ends there with no fatal exit. -/
theorem Serve_step_order (cfg : ServeConfig) (r : Router) :
    ((Serve cfg r).1).head? = some .registerRoutesEv ∧
    ((Serve cfg r).1).Sublist
      [.registerRoutesEv, .certCheckEv, .certGenerateEv, .dbOpenEv,
       .autoMigrateEv, .queueCreateEv, .listenEv, .fatalExitEv] ∧
    (ServeEvent.listenEv ∈ (Serve cfg r).1 →
      ((Serve cfg r).1).getLast? = some .listenEv ∧
      ServeEvent.dbOpenEv ∈ (Serve cfg r).1 ∧
      ServeEvent.queueCreateEv ∈ (Serve cfg r).1 ∧
      ServeEvent.fatalExitEv ∉ (Serve cfg r).1) := by
  rcases certEvents_cases cfg.cert with h1 | h1 | h1 | h1 <;>
    rcases dbEvents_cases cfg.dbCfg with h2 | h2 <;>
      rcases queueEvents_cases cfg.routines with h3 | h3 <;>
        rcases Bool.eq_false_or_eq_true cfg.autoMigrate with h4 | h4 <;>
          (simp only [Serve, h1, h2, h3, h4]; simp; try decide)

/-- C1 (amended, witness): the order facts instantiated on a concrete
healthy run that reaches listening. -/
theorem Serve_step_order_witness :
    ((Serve cfgAllOk emptyRouter).1).getLast? = some ServeEvent.listenEv ∧
    ServeEvent.dbOpenEv ∈ (Serve cfgAllOk emptyRouter).1 ∧
    ((Serve cfgAllOk emptyRouter).1).head? = some .registerRoutesEv := by
  have h := Serve_step_order cfgAllOk emptyRouter
  exact ⟨(h.2.2 (by decide)).1, (h.2.2 (by decide)).2.1, h.1⟩

/-! ## C2 — prefix concatenation in flattening -/

/-- C2: flattening concatenates each node's path prefix with its parent's
accumulated prefix: a node with prefix `pfxA` whose child with prefix
`pfxB` holds route `GET uriC` flattens to the single entry
`GET (pfxA ++ pfxB ++ uriC)`; in particular prefixes `"/a"`, `"/b"` and
route `"/c"` flatten to `GET "/a/b/c"`. -/
theorem flatten_concatenates_prefixes :
    (∀ (pfxA pfxB uriC : String) (hId : Nat),
      flatten (.mk pfxA []
          [.mk pfxB [{ method := GetRequest, uri := uriC, handler := hId }] []])
        = [{ method := GetRequest, uri := pfxA ++ pfxB ++ uriC, handler := hId }]) ∧
    flatten (.mk "/a" [] [.mk "/b" [{ method := GetRequest, uri := "/c", handler := 7 }] []])
      = [{ method := GetRequest, uri := "/a/b/c", handler := 7 }] := by
  constructor
  · intro pfxA pfxB uriC hId
    simp [flatten, flattenFrom, flattenChilds]
  · decide

/-! ## C3 — duplicate (method, path) pairs at registration -/

/-- C3 (counterexample): registering a router whose two routes share the
same (method, absolute path) pair yields no configuration error: the run
reaches listening with no fatal exit, and both conflicting bindings are
handed to the transport. -/
theorem duplicate_routes_no_startup_error_cex :
    (Serve cfgNoCert dupRouter).2
      = [{ method := GetRequest, uri := "/x", handler := 1 },
         { method := GetRequest, uri := "/x", handler := 2 }] ∧
    ((Serve cfgNoCert dupRouter).1).getLast? = some .listenEv ∧
    ServeEvent.fatalExitEv ∉ (Serve cfgNoCert dupRouter).1 := by
  decide

/-- C3 (amended): route registration performs no duplicate detection.  The
startup trace — including whether startup fails or reaches listening — is
independent of the registered routes, duplicates included, and every route
binding (duplicates among them) is handed unchanged to the transport; any
failure on a duplicate pattern is the transport collaborator's, not a
configuration error raised by this code. -/
theorem Serve_no_duplicate_detection (cfg : ServeConfig) (r : Router) :
    (Serve cfg r).1 = (Serve cfg emptyRouter).1 ∧
    (Serve cfg r).2 = RegisterRoutes r := by
  constructor
  · simp only [Serve]
    split_ifs <;> rfl
  · simp only [Serve]
    split_ifs <;> rfl

/-! ## C4 — body read once, reusable -/

/-- C4: in both dispatch modes the transport stream is read exactly once,
the dispatch consumes the transport stream, and the handler receives the
full body both as the materialized `Body` string and as a fresh, unconsumed
replay stream over the same bytes, which re-reading yields in full. -/
theorem body_read_once_and_replayable (h : RequestHTTP → Except Fault Response)
    (t : Stream) (ht : t.consumed = false) :
    countTransportReads (developmentHandler h t) = 1 ∧
    countTransportReads (productionHandler h t) = 1 ∧
    (readAll t).2.consumed = true ∧
    handlerRequests (developmentHandler h t)
      = [{ body := t.contents, requestBody := { contents := t.contents, consumed := false } }] ∧
    handlerRequests (productionHandler h t)
      = [{ body := t.contents, requestBody := { contents := t.contents, consumed := false } }] ∧
    (readAll { contents := t.contents, consumed := false }).1 = t.contents := by
  have hr : (readAll t).1 = t.contents := by simp [readAll, ht]
  have hreq : dispatchRequest t
      = { body := t.contents, requestBody := { contents := t.contents, consumed := false } } := by
    simp [dispatchRequest, hr]
  refine ⟨?_, ?_, by simp [readAll, ht], ?_, ?_, by simp [readAll]⟩ <;>
    · simp only [developmentHandler, productionHandler, hreq]
      cases h { body := t.contents, requestBody := { contents := t.contents, consumed := false } } <;>
        simp [countTransportReads, handlerRequests]

/-- C4 (witness): the guarantees instantiated on a concrete handler and a
fresh transport stream carrying `"hello"`. -/
theorem body_read_once_and_replayable_witness :
    countTransportReads (developmentHandler (fun _ => .ok { status := 200, content := "ok" })
      { contents := "hello", consumed := false }) = 1 ∧
    handlerRequests (developmentHandler (fun _ => .ok { status := 200, content := "ok" })
      { contents := "hello", consumed := false })
      = [{ body := "hello", requestBody := { contents := "hello", consumed := false } }] := by
  have h := body_read_once_and_replayable
    (fun _ => .ok { status := 200, content := "ok" }) { contents := "hello", consumed := false } rfl
  exact ⟨h.1, h.2.2.2.1⟩

/-! ## C5 — body availability is mode-independent -/

/-- C5: for the same transport input, the instrumented (development) and
bare (production) dispatch modes hand the handler the identical request
value — in particular the identical body. -/
theorem dispatch_body_mode_independent (h : RequestHTTP → Except Fault Response)
    (t : Stream) :
    handlerRequests (developmentHandler h t) = handlerRequests (productionHandler h t) := by
  simp only [developmentHandler, productionHandler]
  cases h (dispatchRequest t) <;> simp [handlerRequests]

/-! ## C6 — response write on handler failure -/

/-- C6 (counterexample): a handler that faults produces ZERO response
writes in both dispatch modes — the fault is not converted into an error
response, refuting "exactly one Response write is performed ... including
when the handler itself reports a failure". -/
theorem handler_fault_no_response_write_cex :
    countResponseWrites (developmentHandler (fun _ => .error .handlerPanic)
      { contents := "x", consumed := false }) = 0 ∧
    countResponseWrites (productionHandler (fun _ => .error .handlerPanic)
      { contents := "x", consumed := false }) = 0 := by
  decide

/-- C6 (amended): in both dispatch modes, when the handler returns a
Response, exactly one Response write is performed; when the handler itself
fails, the dispatch pipeline performs no Response write — the failure
propagates out of the dispatch callback unconverted. -/
theorem dispatch_write_iff_handler_ok (h : RequestHTTP → Except Fault Response)
    (t : Stream) :
    (∀ res : Response, h (dispatchRequest t) = .ok res →
      countResponseWrites (developmentHandler h t) = 1 ∧
      countResponseWrites (productionHandler h t) = 1) ∧
    (∀ f : Fault, h (dispatchRequest t) = .error f →
      countResponseWrites (developmentHandler h t) = 0 ∧
      countResponseWrites (productionHandler h t) = 0) := by
  constructor
  · intro res hres
    simp [developmentHandler, productionHandler, hres, countResponseWrites]
  · intro f hf
    simp [developmentHandler, productionHandler, hf, countResponseWrites]

/-- C6 (amended, witness): a returning handler yields one write, a faulting
handler yields none, on concrete inputs. -/
theorem dispatch_write_iff_handler_ok_witness :
    countResponseWrites (developmentHandler (fun _ => .ok { status := 200, content := "ok" })
      { contents := "y", consumed := false }) = 1 ∧
    countResponseWrites (productionHandler (fun _ => .error .handlerPanic)
      { contents := "y", consumed := false }) = 0 := by
  refine ⟨?_, ?_⟩
  · exact ((dispatch_write_iff_handler_ok
      (fun _ => .ok { status := 200, content := "ok" })
      { contents := "y", consumed := false }).1 { status := 200, content := "ok" } rfl).1
  · exact ((dispatch_write_iff_handler_ok
      (fun _ => .error .handlerPanic)
      { contents := "y", consumed := false }).2 .handlerPanic rfl).2

/-! ## C7 — worker-count validation -/

/-- C7: the configured worker count is validated at startup: a non-numeric
string fails the parse fatally, a zero or negative parsed value is a fatal
error at pool creation, and a positive value creates the pool with that
capacity. -/
theorem worker_count_validation (s : String) :
    (parseInt32 s = none → queueSetup s = .error Fatal.queueRoutinesParse) ∧
    (∀ n : Int, parseInt32 s = some n → n ≤ 0 →
      queueSetup s = .error Fatal.nonPositiveWorkerCount) ∧
    (∀ n : Int, parseInt32 s = some n → 0 < n → queueSetup s = .ok n.toNat) := by
  refine ⟨fun hp => ?_, fun n hp hn => ?_, fun n hp hn => ?_⟩
  · simp [queueSetup, hp]
  · simp [queueSetup, hp, NewPool, hn]
  · simp [queueSetup, hp, NewPool, not_le.mpr hn]

/-- C7 (witness): validation outcomes on the concrete strings `"abc"`,
`"0"`, `"-3"` and `"4"`. -/
theorem worker_count_validation_witness :
    queueSetup "abc" = .error Fatal.queueRoutinesParse ∧
    queueSetup "0" = .error Fatal.nonPositiveWorkerCount ∧
    queueSetup "-3" = .error Fatal.nonPositiveWorkerCount ∧
    queueSetup "4" = .ok 4 :=
  ⟨(worker_count_validation "abc").1 (by decide),
   (worker_count_validation "0").2.1 0 (by decide) (by decide),
   (worker_count_validation "-3").2.1 (-3) (by decide) (by decide),
   (worker_count_validation "4").2.2 4 (by decide) (by decide)⟩

/-! ## C8 — certificate generation attempts -/

/-- C8: with secure transport enabled, a valid pre-existing pair triggers
zero generation attempts; missing material triggers exactly one attempt,
which is fatal exactly when it fails. -/
theorem cert_generation_attempts (c : CertConfig) (he : c.enabled = true) :
    (c.checkOk = true →
      generateSSLCertificate c = { generateAttempts := 0, fatal := none }) ∧
    (c.checkOk = false → (generateSSLCertificate c).generateAttempts = 1) ∧
    (c.checkOk = false → c.generateOk = true →
      generateSSLCertificate c = { generateAttempts := 1, fatal := none }) ∧
    (c.checkOk = false → c.generateOk = false →
      generateSSLCertificate c
        = { generateAttempts := 1, fatal := some Fatal.certGenerationFailure }) := by
  refine ⟨fun hc => ?_, fun hc => ?_, fun hc hg => ?_, fun hc hg => ?_⟩
  · simp [generateSSLCertificate, he, hc]
  · rcases Bool.eq_false_or_eq_true c.generateOk with hg | hg <;>
      simp [generateSSLCertificate, he, hc, hg]
  · simp [generateSSLCertificate, he, hc, hg]
  · simp [generateSSLCertificate, he, hc, hg]

/-- C8 (witness): a concrete enabled configuration with missing material
and a succeeding generator makes exactly one attempt; one with a valid
existing pair makes zero. -/
theorem cert_generation_attempts_witness :
    (generateSSLCertificate { enabled := true, checkOk := false, generateOk := true }).generateAttempts = 1 ∧
    generateSSLCertificate { enabled := true, checkOk := true, generateOk := true }
      = { generateAttempts := 0, fatal := none } :=
  ⟨(cert_generation_attempts { enabled := true, checkOk := false, generateOk := true } rfl).2.1 rfl,
   (cert_generation_attempts { enabled := true, checkOk := true, generateOk := true } rfl).1 rfl⟩

/-! ## C9 — unsupported storage driver -/

/-- C9: opening the storage layer with any driver name outside the
supported set `mysql`/`postgres` (network-addressed) and `sqlite3`
(file-addressed) is a fatal error carrying the offending driver name, and
no connection is established. -/
theorem unsupported_driver_fatal (s : DBConfig)
    (hd : s.driver ∉ ["mysql", "postgres", "sqlite3"]) :
    Db.Open s = .error (Fatal.unsupportedDriver s.driver) ∧
    ∀ args : String, Db.Open s ≠ .ok args := by
  simp only [List.mem_cons, List.not_mem_nil, or_false, not_or] at hd
  have hca : connectionArgs s = none := by
    simp [connectionArgs, hd.1, hd.2.1, hd.2.2]
  constructor
  · simp [Db.Open, hca]
  · intro args
    simp [Db.Open, hca]

/-- C9 (witness): the driver name `"mongodb"` is rejected fatally. -/
theorem unsupported_driver_fatal_witness :
    Db.Open mongoCfg = .error (Fatal.unsupportedDriver "mongodb") :=
  (unsupported_driver_fatal mongoCfg (by decide)).1

/-! ## C10 — unrecognized HTTP verbs are silently skipped -/

/-- C10: a route whose method is none of the six recognized verbs binds
nothing to the transport, and registration of a router containing it
produces exactly the bindings of the same router without it — the route is
silently skipped, all other routes still registered, with no error (the
registration function has no failure outcome). -/
theorem unrecognized_method_silently_skipped (m : Nat)
    (hm : m ∉ [GetRequest, HeadRequest, PostRequest, PutRequest, PatchRequest, DeleteRequest])
    (uri : String) (hId : Nat) (pre post : List Route) (childs : List Router) :
    bindRoute { method := m, uri := uri, handler := hId } = [] ∧
    RegisterRoutes (.mk (pre ++ { method := m, uri := uri, handler := hId } :: post) childs)
      = RegisterRoutes (.mk (pre ++ post) childs) := by
  simp only [List.mem_cons, List.not_mem_nil, or_false, not_or] at hm
  have hb : bindRoute { method := m, uri := uri, handler := hId } = [] := by
    simp [bindRoute, hm.1, hm.2.1, hm.2.2.1, hm.2.2.2.1, hm.2.2.2.2.1, hm.2.2.2.2.2]
  refine ⟨hb, ?_⟩
  show bindRoutes (pre ++ { method := m, uri := uri, handler := hId } :: post) ++ registerChilds childs
      = bindRoutes (pre ++ post) ++ registerChilds childs
  have : bindRoutes ({ method := m, uri := uri, handler := hId } :: post)
      = bindRoutes post := by
    simp [bindRoutes, hb]
  simp [bindRoutes_append, this]

/-- C10 (witness): method value `6` (outside the six verbs) is skipped
while a `GET` route in the same router is still bound. -/
theorem unrecognized_method_silently_skipped_witness :
    bindRoute { method := 6, uri := "/z", handler := 3 } = [] ∧
    RegisterRoutes (.mk ([{ method := GetRequest, uri := "/g", handler := 1 }]
        ++ { method := 6, uri := "/z", handler := 3 } :: []) [])
      = RegisterRoutes (.mk ([{ method := GetRequest, uri := "/g", handler := 1 }] ++ []) []) :=
  unrecognized_method_silently_skipped 6 (by decide) "/z" 3
    [{ method := GetRequest, uri := "/g", handler := 1 }] [] []

end Pulsar
